import Mathlib

/-!
Shallow embedding of the client logic of `src/frontend/script.js` from the
via-tech-assistant repository, together with proofs about the claims of its
specification.

The JavaScript file is a browser voice-assistant client.  Its observable state
is a handful of module-level variables (`isRecording`, `mediaRecorder`,
`audioChunks`) plus DOM element state (status message and severity, mic button
class/text/disabled, response area visibility, transcript text, audio player
source/visibility).  All of that is embedded below as the record `AppState`.

Asynchronous control flow is embedded by splitting each `async` function at its
suspension points: each event handler (click, `getUserMedia` resolution,
`ondataavailable`, `onstop`, `onerror`, `FileReader` completion, `fetch`
resolution) becomes a function `AppState → AppState`, and pending asynchronous
operations (device-access requests, blob reads, in-flight network sends) are
tracked explicitly in the state so that interleavings can be expressed.
Acquired-but-unreleased microphone streams are counted by `heldStreams`.
-/

namespace ViaTech

/-! ## Base64 encoding (model of `FileReader.readAsDataURL` in `blobToBase64`) -/

/-- The standard base64 alphabet. -/
def b64Alphabet : List Char :=
  "ABCDEFGHIJKLMNOPQRSTUVWXYZabcdefghijklmnopqrstuvwxyz0123456789+/".toList

/-- Character for a sextet value. -/
def b64Char (n : Nat) : Char := b64Alphabet.getD n 'A'

/-- Sextet value of a base64 character. -/
def b64CharVal (c : Char) : Nat := b64Alphabet.indexOf c

/-- Base64-encode a byte list, three bytes to four characters, `'='`-padded. -/
def b64Encode : List Nat → List Char
  | [] => []
  | [b1] => [b64Char (b1 / 4), b64Char (b1 % 4 * 16), '=', '=']
  | [b1, b2] =>
      [b64Char (b1 / 4), b64Char (b1 % 4 * 16 + b2 / 16), b64Char (b2 % 16 * 4), '=']
  | b1 :: b2 :: b3 :: rest =>
      b64Char (b1 / 4) :: b64Char (b1 % 4 * 16 + b2 / 16) ::
      b64Char (b2 % 16 * 4 + b3 / 64) :: b64Char (b3 % 64) :: b64Encode rest

/-- Base64-decode a character list, four characters to three bytes, honouring
`'='` padding. -/
def b64Decode : List Char → List Nat
  | c1 :: c2 :: c3 :: c4 :: rest =>
      if c3 = '=' then
        [b64CharVal c1 * 4 + b64CharVal c2 / 16]
      else if c4 = '=' then
        [b64CharVal c1 * 4 + b64CharVal c2 / 16,
         b64CharVal c2 % 16 * 16 + b64CharVal c3 / 4]
      else
        (b64CharVal c1 * 4 + b64CharVal c2 / 16) ::
        (b64CharVal c2 % 16 * 16 + b64CharVal c3 / 4) ::
        (b64CharVal c3 % 4 * 64 + b64CharVal c4) :: b64Decode rest
  | _ => []

/-- Basic facts about the alphabet: on sextet values the encoding is injective
with explicit inverse, and never produces `'='` or `','`. -/
theorem b64Char_spec : ∀ n, n < 64 →
    b64CharVal (b64Char n) = n ∧ b64Char n ≠ '=' ∧ b64Char n ≠ ',' := by decide

/-- Decoding inverts encoding on genuine byte lists. -/
theorem b64_roundtrip : ∀ bs : List Nat, (∀ b ∈ bs, b < 256) →
    b64Decode (b64Encode bs) = bs
  | [], _ => rfl
  | [b1], h => by
      have h1 : b1 < 256 := h b1 (by simp)
      simp only [b64Encode, b64Decode, if_pos]
      rw [(b64Char_spec (b1 / 4) (by omega)).1, (b64Char_spec (b1 % 4 * 16) (by omega)).1]
      simp only [List.cons.injEq, and_true]
      omega
  | [b1, b2], h => by
      have h1 : b1 < 256 := h b1 (by simp)
      have h2 : b2 < 256 := h b2 (by simp)
      have ne3 : b64Char (b2 % 16 * 4) ≠ '=' := (b64Char_spec _ (by omega)).2.1
      simp only [b64Encode, b64Decode, if_neg ne3, if_pos]
      rw [(b64Char_spec (b1 / 4) (by omega)).1,
          (b64Char_spec (b1 % 4 * 16 + b2 / 16) (by omega)).1,
          (b64Char_spec (b2 % 16 * 4) (by omega)).1]
      simp only [List.cons.injEq, and_true]
      omega
  | b1 :: b2 :: b3 :: rest, h => by
      have h1 : b1 < 256 := h b1 (by simp)
      have h2 : b2 < 256 := h b2 (by simp)
      have h3 : b3 < 256 := h b3 (by simp)
      have ih := b64_roundtrip rest (fun b hb => h b (by simp [hb]))
      have ne3 : b64Char (b2 % 16 * 4 + b3 / 64) ≠ '=' := (b64Char_spec _ (by omega)).2.1
      have ne4 : b64Char (b3 % 64) ≠ '=' := (b64Char_spec _ (by omega)).2.1
      simp only [b64Encode, b64Decode, if_neg ne3, if_neg ne4]
      rw [(b64Char_spec (b1 / 4) (by omega)).1,
          (b64Char_spec (b1 % 4 * 16 + b2 / 16) (by omega)).1,
          (b64Char_spec (b2 % 16 * 4 + b3 / 64) (by omega)).1,
          (b64Char_spec (b3 % 64) (by omega)).1, ih]
      simp only [List.cons.injEq, and_true]
      omega

/-- The encoded text never contains a comma. -/
theorem b64Encode_noComma : ∀ bs : List Nat, (∀ b ∈ bs, b < 256) →
    ',' ∉ b64Encode bs
  | [], _ => by simp [b64Encode]
  | [b1], h => by
      have h1 : b1 < 256 := h b1 (by simp)
      have c1 := (b64Char_spec (b1 / 4) (by omega)).2.2
      have c2 := (b64Char_spec (b1 % 4 * 16) (by omega)).2.2
      intro hm
      simp only [b64Encode, List.mem_cons, List.not_mem_nil, or_false] at hm
      rcases hm with hm | hm | hm | hm
      · exact c1 hm.symm
      · exact c2 hm.symm
      · exact absurd hm (by decide)
      · exact absurd hm (by decide)
  | [b1, b2], h => by
      have h1 : b1 < 256 := h b1 (by simp)
      have h2 : b2 < 256 := h b2 (by simp)
      have c1 := (b64Char_spec (b1 / 4) (by omega)).2.2
      have c2 := (b64Char_spec (b1 % 4 * 16 + b2 / 16) (by omega)).2.2
      have c3 := (b64Char_spec (b2 % 16 * 4) (by omega)).2.2
      intro hm
      simp only [b64Encode, List.mem_cons, List.not_mem_nil, or_false] at hm
      rcases hm with hm | hm | hm | hm
      · exact c1 hm.symm
      · exact c2 hm.symm
      · exact c3 hm.symm
      · exact absurd hm (by decide)
  | b1 :: b2 :: b3 :: rest, h => by
      have h1 : b1 < 256 := h b1 (by simp)
      have h2 : b2 < 256 := h b2 (by simp)
      have h3 : b3 < 256 := h b3 (by simp)
      have ih := b64Encode_noComma rest (fun b hb => h b (by simp [hb]))
      have c1 := (b64Char_spec (b1 / 4) (by omega)).2.2
      have c2 := (b64Char_spec (b1 % 4 * 16 + b2 / 16) (by omega)).2.2
      have c3 := (b64Char_spec (b2 % 16 * 4 + b3 / 64) (by omega)).2.2
      have c4 := (b64Char_spec (b3 % 64) (by omega)).2.2
      intro hm
      simp only [b64Encode, List.mem_cons] at hm
      rcases hm with hm | hm | hm | hm | hm
      · exact c1 hm.symm
      · exact c2 hm.symm
      · exact c3 hm.symm
      · exact c4 hm.symm
      · exact ih hm

/-- Nonempty input encodes to nonempty output. -/
theorem b64Encode_ne_nil : ∀ bs : List Nat, bs ≠ [] → b64Encode bs ≠ []
  | [], h => absurd rfl h
  | [_], _ => by simp [b64Encode]
  | [_, _], _ => by simp [b64Encode]
  | _ :: _ :: _ :: _, _ => by simp [b64Encode]

/-! ## Blobs and data URLs

`mediaRecorder.onstop` builds `new Blob(audioChunks, { type:
mediaRecorder.mimeType || 'audio/webm' })` and `blobToBase64` reads it with
`FileReader.readAsDataURL`, which yields `"data:<type>;base64,<base64 text>"`.
`sendAudioToApi` then strips the header with
`base64AudioString.split(',')[1] || base64AudioString`. -/

/-- A binary blob: a MIME-type tag and its bytes. -/
structure Blob where
  type : List Char
  bytes : List Nat
deriving DecidableEq

/-- Model of `new Blob(audioChunks, { type: mime || 'audio/webm' })`:
concatenates the chunks, with the JS falsy-fallback on the empty type tag. -/
def mkBlob (chunks : List (List Nat)) (mime : List Char) : Blob :=
  { type := if mime = [] then "audio/webm".toList else mime,
    bytes := chunks.flatten }

/-- Model of the string produced by `FileReader.readAsDataURL` inside
`blobToBase64`. -/
def dataUrlOfBlob (b : Blob) : List Char :=
  "data:".toList ++ b.type ++ ";base64,".toList ++ b64Encode b.bytes

/-- The segment of a character list strictly between its first and second
commas (to the end if there is no second comma); `none` when there is no
comma.  This is JS `s.split(',')[1]`. -/
def afterFirstComma : List Char → Option (List Char)
  | [] => none
  | c :: rest =>
      if c = ',' then some (rest.takeWhile (fun d => d != ',')) else afterFirstComma rest

/-- Model of `base64AudioString.split(',')[1] || base64AudioString` at the top
of `sendAudioToApi` (the `||` also falls back when the segment is empty, since
`""` is falsy). -/
def dropDataHeader (s : List Char) : List Char :=
  match afterFirstComma s with
  | some p => if p = [] then s else p
  | none => s

/-- `takeWhile` of the not-comma predicate keeps a comma-free list whole. -/
theorem takeWhile_noComma : ∀ l : List Char, ',' ∉ l →
    l.takeWhile (fun d => d != ',') = l
  | [], _ => rfl
  | c :: rest, h => by
      have hc : (c != ',') = true := by
        simp only [bne_iff_ne, ne_eq]
        intro hh
        exact h (by simp [hh])
      simp only [List.takeWhile_cons, hc, if_true]
      rw [takeWhile_noComma rest (fun hm => h (List.mem_cons_of_mem c hm))]

/-- Splitting at the first comma of `P ++ ',' :: E` with `P` comma-free
returns the part of `E` before any further comma. -/
theorem afterFirstComma_append : ∀ P E : List Char, ',' ∉ P →
    afterFirstComma (P ++ ',' :: E) = some (E.takeWhile (fun d => d != ','))
  | [], _, _ => by simp [afterFirstComma]
  | c :: P, E, h => by
      have hc : ¬ c = ',' := fun hh => h (by simp [hh])
      simp only [List.cons_append, afterFirstComma, if_neg hc]
      exact afterFirstComma_append P E (fun hm => h (List.mem_cons_of_mem c hm))

/-! ## Application state

One record for the module-level variables of `script.js`, the DOM state it
mutates, and explicit queues/counters for the asynchronous operations it has
outstanding. -/

/-- The `MediaRecorder.state` values this program inspects. -/
inductive RecState where
  | recording
  | inactive
deriving DecidableEq

/-- One `MediaRecorder` instance: its state and its negotiated MIME type
(`[]` models the empty `mimeType` property when construction with the
preferred `audio/webm;codecs=opus` option failed and the default was used). -/
structure Recorder where
  recState : RecState
  mime : List Char
deriving DecidableEq

/-- The observable state of the client. -/
structure AppState where
  /-- whether `navigator.mediaDevices.getUserMedia` exists -/
  mediaDevicesSupported : Bool
  /-- module variable `isRecording` -/
  isRecording : Bool
  /-- `micButton.disabled` -/
  micDisabled : Bool
  /-- whether `micButton.classList` holds `recording` -/
  micRecClass : Bool
  /-- `micText.textContent` -/
  micText : String
  /-- `statusMessage.textContent` -/
  status : String
  /-- whether `statusMessage.className` is `status-message error` -/
  statusErr : Bool
  /-- whether `responseArea.style.display` is not `none` -/
  responseVisible : Bool
  /-- `transcriptOutput.textContent` -/
  transcript : String
  /-- `audioPlayer.src` -/
  audioSrc : String
  /-- whether `audioPlayer.style.display` is not `none` -/
  audioVisible : Bool
  /-- module variable `mediaRecorder` (`none` models `null`/`undefined`) -/
  recorder : Option Recorder
  /-- module variable `audioChunks` -/
  audioChunks : List (List Nat)
  /-- suspended `startRecording` calls awaiting their `getUserMedia` promise -/
  pendingAccess : Nat
  /-- `stop()` calls whose `onstop` event has not fired yet -/
  pendingStops : Nat
  /-- blobs whose `FileReader` read (`blobToBase64`) is outstanding -/
  pendingReads : List Blob
  /-- `fetch` requests in flight -/
  pendingSends : Nat
  /-- bodies handed to `fetch`, in order of issue -/
  sentBodies : List (List Char)
  /-- microphone streams acquired by `getUserMedia` whose tracks have not all
  been stopped -/
  heldStreams : Nat
deriving DecidableEq

/-- The page as `script.js` leaves it after its top-level code ran in a
supporting browser (the final line sets the initial status). -/
def initialState : AppState :=
  { mediaDevicesSupported := true, isRecording := false, micDisabled := false,
    micRecClass := false,
    micText := "Click me to ask your technological questions",
    status := "Click the microphone button to start.", statusErr := false,
    responseVisible := false, transcript := "", audioSrc := "",
    audioVisible := false, recorder := none, audioChunks := [],
    pendingAccess := 0, pendingStops := 0, pendingReads := [],
    pendingSends := 0, sentBodies := [], heldStreams := 0 }

/-! ## Handlers -/

/-- `updateStatus(message, isError)`. -/
def updateStatus (message : String) (isError : Bool) (s : AppState) : AppState :=
  { s with status := message, statusErr := isError }

/-- `resetMicButton()`. -/
def resetMicButton (s : AppState) : AppState :=
  { s with isRecording := false, micRecClass := false,
           micText := "Click me to ask your technological questions" }

/-- The synchronous prefix of `startRecording()`: the support check, then
`updateStatus('Requesting microphone access...')` and the suspension on
`navigator.mediaDevices.getUserMedia({ audio: true })`, recorded as one more
pending device-access request. -/
def startRecordingSync (s : AppState) : AppState :=
  if !s.mediaDevicesSupported then
    updateStatus "Media Devices API not supported." true s
  else
    let s1 := updateStatus "Requesting microphone access..." false s
    { s1 with pendingAccess := s1.pendingAccess + 1 }

/-- The `micButton` click listener: start when `isRecording` is false,
otherwise stop. -/
def stopRecording (s : AppState) : AppState :=
  match s.recorder with
  | some r =>
      if r.recState = RecState.recording then
        { s with recorder := some { r with recState := RecState.inactive },
                 pendingStops := s.pendingStops + 1,
                 status := "Stopping recording...", statusErr := false,
                 isRecording := false, micRecClass := false,
                 micText := "Processing..." }
      else resetMicButton s
  | none => resetMicButton s

/-- The `micButton` click listener. -/
def clickHandler (s : AppState) : AppState :=
  if !s.isRecording then startRecordingSync s else stopRecording s

/-- Resumption of `startRecording()` when `getUserMedia` resolves (lines
43-118 of `script.js`): flips `isRecording`, updates the button and status,
hides and clears the previous response, resets `audioChunks`, constructs the
`MediaRecorder` (preferred MIME type when the platform accepts it, default
otherwise), installs the handlers and starts it.  The granted stream is one
more held microphone stream. -/
def grantAccess (preferredOk : Bool) (s : AppState) : AppState :=
  { s with pendingAccess := s.pendingAccess - 1,
           isRecording := true, micRecClass := true,
           micText := "Recording... Click to stop",
           status := "Recording started...", statusErr := false,
           responseVisible := false, transcript := "", audioSrc := "",
           audioVisible := false, audioChunks := [],
           recorder := some { recState := RecState.recording,
                              mime := if preferredOk then
                                        "audio/webm;codecs=opus".toList
                                      else [] },
           heldStreams := s.heldStreams + 1 }

/-- Resumption of `startRecording()` when `getUserMedia` rejects (the `catch`
at lines 120-124). -/
def denyAccess (errMsg : String) (s : AppState) : AppState :=
  resetMicButton (updateStatus
    ("Could not access microphone: " ++ errMsg ++ ". Please grant permission.")
    true { s with pendingAccess := s.pendingAccess - 1 })

/-- `mediaRecorder.ondataavailable`: appends the chunk when its size is
positive. -/
def onDataAvailable (chunk : List Nat) (s : AppState) : AppState :=
  if 0 < chunk.length then { s with audioChunks := s.audioChunks ++ [chunk] }
  else s

/-- The synchronous part of `mediaRecorder.onstop`: with zero chunks it
reports and resets (returning early, before the track-stopping line); with
chunks it builds the blob, stops the stream tracks, nulls the recorder, sets
the processing status and suspends on `blobToBase64`, recorded as a pending
read. -/
def onstopFire (s : AppState) : AppState :=
  let s1 := { s with pendingStops := s.pendingStops - 1 }
  if s1.audioChunks = [] then
    resetMicButton (updateStatus "No audio was recorded. Please try again." true s1)
  else
    let blob := mkBlob s1.audioChunks
      (match s1.recorder with
       | some r => r.mime
       | none => [])
    { s1 with heldStreams := s1.heldStreams - 1, recorder := none,
              status := "Processing audio...", statusErr := false,
              pendingReads := s1.pendingReads ++ [blob] }

/-- `mediaRecorder.onerror`: reports the error, clears `isRecording`, resets
the button, stops the stream tracks when the stream is still active and nulls
the recorder. -/
def onError (errName : String) (streamActive : Bool) (s : AppState) : AppState :=
  let s1 := updateStatus ("Recording error: " ++ errName) true s
  let s2 := resetMicButton { s1 with isRecording := false }
  let s3 := if streamActive then { s2 with heldStreams := s2.heldStreams - 1 }
            else s2
  { s3 with recorder := none }

/-- Resumption of `onstop` when `blobToBase64` resolves, fused with the
synchronous prefix of `sendAudioToApi`: strips the data-URL header, updates
the status and issues the `fetch`, recorded as one more in-flight send. -/
def readResolveFirst (s : AppState) : AppState :=
  match s.pendingReads with
  | [] => s
  | b :: rest =>
      { s with pendingReads := rest,
               status := "Sending audio to Via...", statusErr := false,
               pendingSends := s.pendingSends + 1,
               sentBodies := s.sentBodies ++ [dropDataHeader (dataUrlOfBlob b)] }

/-- Resumption of `onstop` when `blobToBase64` rejects (the `catch` at lines
98-102). -/
def readRejectFirst (s : AppState) : AppState :=
  match s.pendingReads with
  | [] => s
  | _ :: rest =>
      resetMicButton (updateStatus "Error processing audio." true
        { s with pendingReads := rest })

/-- The response body as far as this client inspects it: whether
`response.json()` succeeds (and the message of the exception when it does
not), and the `error`, `message`, `transcript` and `audioUrl` fields (`none`
models an absent field). -/
structure RemoteBody where
  jsonOk : Bool
  parseErrMsg : String
  errField : Option String
  msgField : Option String
  transcript : Option String
  audioUrl : Option String
deriving DecidableEq

/-- How the `fetch` promise resolves. -/
inductive FetchResult where
  | networkError (msg : String)
  | httpResponse (ok : Bool) (status : Nat) (statusText : String) (body : RemoteBody)
deriving DecidableEq

/-- JS truthiness of a possibly absent string field: present and nonempty. -/
def jsTruthy : Option String → Bool
  | some v => !(v == "")
  | none => false

/-- JS `o || d` on a possibly absent string. -/
def jsOrString (o : Option String) (d : String) : String :=
  match o with
  | some v => if v = "" then d else v
  | none => d

/-- `displayResponse(data)`. -/
def displayResponse (body : RemoteBody) (s : AppState) : AppState :=
  if jsTruthy body.transcript && jsTruthy body.audioUrl then
    { s with transcript := body.transcript.getD "",
             audioSrc := body.audioUrl.getD "",
             audioVisible := true, responseVisible := true,
             status := "Response loaded. Press play to listen.",
             statusErr := false }
  else
    { s with status := "Received an invalid response from the assistant.",
             statusErr := true, responseVisible := false }

/-- The continuation of `sendAudioToApi` once the `fetch` promise settles
(lines 163-187): the non-ok branch extracts `error`/`message` with the
generic status-line fallback and throws; the ok branch parses the body,
renders it and then sets the `'Response received.'` status; every path runs
the `finally` reset. -/
def sendAudioResponse (res : FetchResult) (s : AppState) : AppState :=
  match res with
  | FetchResult.networkError msg =>
      resetMicButton (updateStatus ("Failed to get response: " ++ msg) true s)
  | FetchResult.httpResponse ok status statusText body =>
      if ok then
        if body.jsonOk then
          resetMicButton (updateStatus "Response received." false
            (displayResponse body s))
        else
          resetMicButton (updateStatus
            ("Failed to get response: " ++ body.parseErrMsg) true s)
      else
        resetMicButton (updateStatus ("Failed to get response: " ++
          (if body.jsonOk then
             jsOrString body.errField (jsOrString body.msgField
               ("Error: " ++ toString status ++ " " ++ statusText))
           else "Error: " ++ toString status ++ " " ++ statusText)) true s)

/-- One in-flight `fetch` settling with result `res`. -/
def fetchResolveFirst (res : FetchResult) (s : AppState) : AppState :=
  match s.pendingSends with
  | 0 => s
  | n + 1 => sendAudioResponse res { s with pendingSends := n }

/-! ## Concrete traces -/

/-- Press the control on the fresh page and have the device granted with the
preferred format: the machine is Recording. -/
def sRecording : AppState := grantAccess true (clickHandler initialState)

/-- Press again immediately, so the recorder stops before any chunk arrived,
and let `onstop` fire: the zero-chunk exit path. -/
def sNoChunkStop : AppState := onstopFire (clickHandler sRecording)

/-- A full happy capture of one 3-byte chunk up to the point where the encoded
body has been handed to `fetch`: the machine is Processing with one in-flight
send. -/
def sProcessing : AppState :=
  readResolveFirst (onstopFire (clickHandler (onDataAvailable [1, 2, 3] sRecording)))

/-- A syntactically valid success body lacking both `transcript` and
`audioUrl`. -/
def invalidBody : RemoteBody :=
  { jsonOk := true, parseErrMsg := "", errField := none, msgField := none,
    transcript := none, audioUrl := none }

/-- An HTTP-error body carrying `{"error":"upstream failure"}`. -/
def upstreamBody : RemoteBody :=
  { jsonOk := true, parseErrMsg := "", errField := some "upstream failure",
    msgField := none, transcript := none, audioUrl := none }

/-- Machine back in the Idle shape reachable from `s0`: `isRecording` false,
the mic button reset to its default class/text, and still exactly as pressable
as before. -/
def controlIdle (s0 s1 : AppState) : Prop :=
  s1.isRecording = false ∧ s1.micRecClass = false ∧
  s1.micText = "Click me to ask your technological questions" ∧
  s1.micDisabled = s0.micDisabled

/-! ## Claims -/

/-- Claim C1, counterexample.  The claim states that a press while Processing
or Requesting is ignored.  In the code the click listener only tests
`isRecording`, which is false in both of those states, so the press invokes
`startRecording`: from the concrete Processing state `sProcessing` (one send
in flight) the press changes the state, sets the requesting status and issues
a new device-access request, and running that second cycle to its send puts a
second `fetch` in flight. -/
theorem c1_counterexample :
    sProcessing.pendingSends = 1 ∧
    sProcessing.isRecording = false ∧
    clickHandler sProcessing ≠ sProcessing ∧
    (clickHandler sProcessing).status = "Requesting microphone access..." ∧
    (clickHandler sProcessing).pendingAccess = sProcessing.pendingAccess + 1 ∧
    (readResolveFirst (onstopFire (clickHandler (onDataAvailable [7]
      (grantAccess true (clickHandler sProcessing)))))).pendingSends = 2 := by
  decide

/-- Claim C1, amended.  A press in any state where `isRecording` is false —
which includes Processing and Requesting — is not ignored: it runs
`startRecording`, which replaces the status with the requesting message and
issues one more device-access request, leaving any in-flight send in flight,
so a second concurrent cycle (and hence a second send) is possible. -/
theorem c1_amended (s : AppState) (h1 : s.isRecording = false)
    (h2 : s.mediaDevicesSupported = true) :
    clickHandler s = startRecordingSync s ∧
    (clickHandler s).status = "Requesting microphone access..." ∧
    (clickHandler s).statusErr = false ∧
    (clickHandler s).pendingAccess = s.pendingAccess + 1 ∧
    (clickHandler s).pendingSends = s.pendingSends := by
  simp [clickHandler, startRecordingSync, updateStatus, h1, h2]

/-- Witness for the amended claim C1 at the concrete Processing state. -/
theorem c1_amended_witness :
    clickHandler sProcessing = startRecordingSync sProcessing ∧
    (clickHandler sProcessing).status = "Requesting microphone access..." ∧
    (clickHandler sProcessing).statusErr = false ∧
    (clickHandler sProcessing).pendingAccess = sProcessing.pendingAccess + 1 ∧
    (clickHandler sProcessing).pendingSends = sProcessing.pendingSends :=
  c1_amended sProcessing (by decide) (by decide)

/-- Claim C2, evaluation at the failing input.  Stopping a session before any
chunk arrived takes the zero-chunk exit path of `onstop`, which returns before
the `stream.getTracks().forEach(track => track.stop())` line: after the
session ends the acquired stream is still held (`heldStreams = 1`), unlike the
non-empty exit path, which does release it. -/
theorem c2_code_bug_eval :
    sNoChunkStop.status = "No audio was recorded. Please try again." ∧
    sNoChunkStop.statusErr = true ∧
    sNoChunkStop.isRecording = false ∧
    sNoChunkStop.heldStreams = 1 ∧
    (onstopFire (clickHandler (onDataAvailable [1, 2, 3] sRecording))).heldStreams = 0 := by
  decide

/-- Claim C3, evaluation at the failing input.  For a success response whose
body lacks the required fields, `displayResponse` does set the error status,
but `sendAudioToApi` then unconditionally runs
`updateStatus('Response received.')`, so the final visible status after the
cycle is a non-error message: the invalid-shape error is overwritten. -/
theorem c3_code_bug_eval :
    (displayResponse invalidBody sProcessing).statusErr = true ∧
    (displayResponse invalidBody sProcessing).status =
      "Received an invalid response from the assistant." ∧
    (fetchResolveFirst (FetchResult.httpResponse true 200 "OK" invalidBody)
      sProcessing).status = "Response received." ∧
    (fetchResolveFirst (FetchResult.httpResponse true 200 "OK" invalidBody)
      sProcessing).statusErr = false := by
  decide

/-- Claim C4, counterexample.  On HTTP 500 with body
`{"error":"upstream failure"}` the user-facing status is the extracted text
prefixed with `Failed to get response: `, not exactly `upstream failure`. -/
theorem c4_counterexample :
    (fetchResolveFirst (FetchResult.httpResponse false 500 "Internal Server Error"
      upstreamBody) sProcessing).status =
      "Failed to get response: upstream failure" ∧
    (fetchResolveFirst (FetchResult.httpResponse false 500 "Internal Server Error"
      upstreamBody) sProcessing).status ≠ "upstream failure" := by
  decide

/-- Claim C4, amended.  On any non-success response whose parsed body carries
a non-empty `error` field `e`, the reported message is exactly
`Failed to get response: ` followed by `e`, with error severity, and the
machine returns to Idle (recording flag cleared and the control reset). -/
theorem c4_amended (s : AppState) (st : Nat) (stText : String)
    (body : RemoteBody) (e : String) (h1 : body.jsonOk = true)
    (h2 : body.errField = some e) (h3 : e ≠ "") :
    (sendAudioResponse (FetchResult.httpResponse false st stText body) s).status =
      "Failed to get response: " ++ e ∧
    (sendAudioResponse (FetchResult.httpResponse false st stText body) s).statusErr = true ∧
    (sendAudioResponse (FetchResult.httpResponse false st stText body) s).isRecording = false ∧
    (sendAudioResponse (FetchResult.httpResponse false st stText body) s).micRecClass = false ∧
    (sendAudioResponse (FetchResult.httpResponse false st stText body) s).micText =
      "Click me to ask your technological questions" := by
  simp [sendAudioResponse, jsOrString, h1, h2, h3, updateStatus, resetMicButton]

/-- Witness for the amended claim C4 at the concrete scenario of the spec. -/
theorem c4_amended_witness :
    (sendAudioResponse (FetchResult.httpResponse false 500 "Internal Server Error"
      upstreamBody) sProcessing).status =
      "Failed to get response: " ++ "upstream failure" ∧
    (sendAudioResponse (FetchResult.httpResponse false 500 "Internal Server Error"
      upstreamBody) sProcessing).statusErr = true ∧
    (sendAudioResponse (FetchResult.httpResponse false 500 "Internal Server Error"
      upstreamBody) sProcessing).isRecording = false ∧
    (sendAudioResponse (FetchResult.httpResponse false 500 "Internal Server Error"
      upstreamBody) sProcessing).micRecClass = false ∧
    (sendAudioResponse (FetchResult.httpResponse false 500 "Internal Server Error"
      upstreamBody) sProcessing).micText =
      "Click me to ask your technological questions" :=
  c4_amended sProcessing 500 "Internal Server Error" upstreamBody
    "upstream failure" rfl rfl (by decide)

/-- Claim C5.  A success payload lacking `transcript` or lacking `audioUrl`
is rejected by `displayResponse`: the invalid-response error is reported with
error severity at that point, neither the transcript text nor the audio
source is written, and the response area is hidden — also after the whole
response handler (`sendAudioToApi` success branch) has run. -/
theorem c5_invalid_payload_rejected (s : AppState) (body : RemoteBody)
    (st : Nat) (stText : String) :
    (displayResponse { body with transcript := none } s).statusErr = true ∧
    (displayResponse { body with transcript := none } s).status =
      "Received an invalid response from the assistant." ∧
    (displayResponse { body with transcript := none } s).responseVisible = false ∧
    (displayResponse { body with transcript := none } s).transcript = s.transcript ∧
    (displayResponse { body with transcript := none } s).audioSrc = s.audioSrc ∧
    (displayResponse { body with audioUrl := none } s).statusErr = true ∧
    (displayResponse { body with audioUrl := none } s).status =
      "Received an invalid response from the assistant." ∧
    (displayResponse { body with audioUrl := none } s).responseVisible = false ∧
    (displayResponse { body with audioUrl := none } s).transcript = s.transcript ∧
    (displayResponse { body with audioUrl := none } s).audioSrc = s.audioSrc ∧
    (sendAudioResponse (FetchResult.httpResponse true st stText
      { body with jsonOk := true, transcript := none }) s).responseVisible = false ∧
    (sendAudioResponse (FetchResult.httpResponse true st stText
      { body with jsonOk := true, transcript := none }) s).transcript = s.transcript ∧
    (sendAudioResponse (FetchResult.httpResponse true st stText
      { body with jsonOk := true, transcript := none }) s).audioSrc = s.audioSrc := by
  simp [displayResponse, sendAudioResponse, jsTruthy, updateStatus, resetMicButton]

/-- Claim C6.  When `onstop` finalizes a session with an empty chunk
sequence, the no-audio message is reported with error severity, the button is
reset, and neither an encoding (pending blob read) nor a network request
(pending or recorded send) is produced. -/
theorem c6_no_audio_captured (s : AppState) (h : s.audioChunks = []) :
    (onstopFire s).status = "No audio was recorded. Please try again." ∧
    (onstopFire s).statusErr = true ∧
    (onstopFire s).isRecording = false ∧
    (onstopFire s).pendingReads = s.pendingReads ∧
    (onstopFire s).pendingSends = s.pendingSends ∧
    (onstopFire s).sentBodies = s.sentBodies := by
  simp [onstopFire, h, resetMicButton, updateStatus]

/-- Witness for claim C6 on the concrete zero-chunk trace. -/
theorem c6_no_audio_captured_witness :
    (onstopFire (clickHandler sRecording)).status =
      "No audio was recorded. Please try again." ∧
    (onstopFire (clickHandler sRecording)).statusErr = true ∧
    (onstopFire (clickHandler sRecording)).isRecording = false ∧
    (onstopFire (clickHandler sRecording)).pendingReads =
      (clickHandler sRecording).pendingReads ∧
    (onstopFire (clickHandler sRecording)).pendingSends =
      (clickHandler sRecording).pendingSends ∧
    (onstopFire (clickHandler sRecording)).sentBodies =
      (clickHandler sRecording).sentBodies :=
  c6_no_audio_captured (clickHandler sRecording) (by decide)

/-- Claim C7.  Encoding a finalized chunk sequence — blob concatenation, the
data URL produced by `blobToBase64`, and the header strip performed by
`sendAudioToApi` — yields text that base64-decodes back to exactly the
original bytes, so the decoded byte length equals the total captured size. -/
theorem c7_base64_roundtrip (chunks : List (List Nat)) (mime : List Char)
    (h1 : chunks.flatten ≠ []) (h2 : ∀ b ∈ chunks.flatten, b < 256)
    (h3 : ',' ∉ mime) :
    b64Decode (dropDataHeader (dataUrlOfBlob (mkBlob chunks mime))) =
      chunks.flatten ∧
    (b64Decode (dropDataHeader (dataUrlOfBlob (mkBlob chunks mime)))).length =
      (chunks.map List.length).sum := by
  have hT : ',' ∉ (mkBlob chunks mime).type := by
    simp only [mkBlob]
    split
    · decide
    · exact h3
  have henc := b64Encode_noComma chunks.flatten h2
  have hne := b64Encode_ne_nil chunks.flatten h1
  have hurl : dataUrlOfBlob (mkBlob chunks mime) =
      ("data:".toList ++ (mkBlob chunks mime).type ++ ";base64".toList) ++
        ',' :: b64Encode chunks.flatten := by
    have hsplit : (";base64,".toList : List Char) = ";base64".toList ++ [','] := by
      decide
    simp only [dataUrlOfBlob, hsplit]
    simp [List.append_assoc, mkBlob]
  have hP : ',' ∉ ("data:".toList ++ (mkBlob chunks mime).type ++ ";base64".toList) := by
    intro hm
    rcases List.mem_append.mp hm with hm | hm
    · rcases List.mem_append.mp hm with hm | hm
      · exact absurd hm (by decide)
      · exact hT hm
    · exact absurd hm (by decide)
  have hafter : afterFirstComma (dataUrlOfBlob (mkBlob chunks mime)) =
      some (b64Encode chunks.flatten) := by
    rw [hurl, afterFirstComma_append _ _ hP, takeWhile_noComma _ henc]
  have hdrop : dropDataHeader (dataUrlOfBlob (mkBlob chunks mime)) =
      b64Encode chunks.flatten := by
    simp [dropDataHeader, hafter, hne]
  rw [hdrop, b64_roundtrip chunks.flatten h2]
  exact ⟨rfl, List.length_flatten chunks⟩

/-- Witness for claim C7 on two concrete chunks. -/
theorem c7_base64_roundtrip_witness :
    b64Decode (dropDataHeader (dataUrlOfBlob
      (mkBlob [[1, 2], [3, 4, 5]] "audio/webm;codecs=opus".toList))) =
      ([[1, 2], [3, 4, 5]] : List (List Nat)).flatten ∧
    (b64Decode (dropDataHeader (dataUrlOfBlob
      (mkBlob [[1, 2], [3, 4, 5]] "audio/webm;codecs=opus".toList)))).length =
      (([[1, 2], [3, 4, 5]] : List (List Nat)).map List.length).sum :=
  c7_base64_roundtrip [[1, 2], [3, 4, 5]] "audio/webm;codecs=opus".toList
    (by decide) (by decide) (by decide)

/-- Claim C8.  Every terminal outcome — permission denial, mid-capture device
error, zero-chunk stop, encoding (blob read) failure, and any settling of the
network exchange (success render, network error, remote error, parse failure
or invalid shape) — leaves the machine Idle: `isRecording` false, the control
reset to its default class and text, and exactly as pressable as before. -/
theorem c8_terminal_outcomes_idle (s : AppState) (m : String) (active : Bool)
    (res : FetchResult) :
    controlIdle s (denyAccess m s) ∧
    controlIdle s (onError m active s) ∧
    (s.audioChunks = [] → controlIdle s (onstopFire s)) ∧
    (s.pendingReads ≠ [] → controlIdle s (readRejectFirst s)) ∧
    (0 < s.pendingSends → controlIdle s (fetchResolveFirst res s)) := by
  refine ⟨?_, ?_, ?_, ?_, ?_⟩
  · simp [controlIdle, denyAccess, resetMicButton, updateStatus]
  · cases active <;> simp [controlIdle, onError, resetMicButton, updateStatus]
  · intro h
    simp [controlIdle, onstopFire, h, resetMicButton, updateStatus]
  · intro h
    rcases hp : s.pendingReads with _ | ⟨b, rest⟩
    · exact absurd hp h
    · simp [controlIdle, readRejectFirst, hp, resetMicButton, updateStatus]
  · intro h
    rcases hn : s.pendingSends with _ | n
    · omega
    · rcases res with m2 | ⟨ok, st, stT, body⟩
      · simp [controlIdle, fetchResolveFirst, hn, sendAudioResponse,
              resetMicButton, updateStatus]
      · cases ok <;> cases hj : body.jsonOk <;>
          simp [controlIdle, fetchResolveFirst, hn, sendAudioResponse, hj,
                displayResponse, resetMicButton, updateStatus]
        split <;> simp

/-- A state with one pending blob read and one in-flight send, used to witness
claim C8. -/
def sW8 : AppState :=
  { initialState with
      pendingReads := [{ type := "audio/webm".toList, bytes := [7] }],
      pendingSends := 1 }

/-- Witness for claim C8 with every hypothesis discharged at `sW8`. -/
theorem c8_terminal_outcomes_idle_witness :
    controlIdle sW8 (denyAccess "denied" sW8) ∧
    controlIdle sW8 (onError "denied" true sW8) ∧
    controlIdle sW8 (onstopFire sW8) ∧
    controlIdle sW8 (readRejectFirst sW8) ∧
    controlIdle sW8 (fetchResolveFirst (FetchResult.networkError "down") sW8) := by
  have h := c8_terminal_outcomes_idle sW8 "denied" true (FetchResult.networkError "down")
  exact ⟨h.1, h.2.1, h.2.2.1 rfl, h.2.2.2.1 (by decide), h.2.2.2.2 (by decide)⟩

/-- Claim C9.  When device access is granted and a new cycle starts, the
previously rendered answer is cleared before capture begins: transcript
emptied, audio source cleared and hidden, response area hidden (and the chunk
buffer reset). -/
theorem c9_start_clears_previous_answer (s : AppState) (preferredOk : Bool) :
    (grantAccess preferredOk s).transcript = "" ∧
    (grantAccess preferredOk s).audioSrc = "" ∧
    (grantAccess preferredOk s).audioVisible = false ∧
    (grantAccess preferredOk s).responseVisible = false ∧
    (grantAccess preferredOk s).audioChunks = [] ∧
    (grantAccess preferredOk s).isRecording = true := by
  simp [grantAccess]

/-- Claim C10.  A field that is present but the empty string is falsy in the
`data.transcript && data.audioUrl` test, so `displayResponse` treats it
exactly as if absent: same resulting state, error reported, nothing rendered,
area hidden. -/
theorem c10_empty_string_invalid (s : AppState) (body : RemoteBody) :
    displayResponse { body with transcript := some "" } s =
      displayResponse { body with transcript := none } s ∧
    displayResponse { body with audioUrl := some "" } s =
      displayResponse { body with audioUrl := none } s ∧
    (displayResponse { body with transcript := some "" } s).statusErr = true ∧
    (displayResponse { body with transcript := some "" } s).status =
      "Received an invalid response from the assistant." ∧
    (displayResponse { body with transcript := some "" } s).responseVisible = false ∧
    (displayResponse { body with transcript := some "" } s).transcript = s.transcript ∧
    (displayResponse { body with transcript := some "" } s).audioSrc = s.audioSrc ∧
    (displayResponse { body with audioUrl := some "" } s).statusErr = true ∧
    (displayResponse { body with audioUrl := some "" } s).responseVisible = false := by
  simp [displayResponse, jsTruthy]

end ViaTech
